import Mathlib

/-!
Verification of the ghaster 2D platformer core.

The geometry primitive and the collision resolver come from
`src/game/physics.py`; the board builders and the per-frame jump logic
come from `src/game/main.py`.  Python floats are modelled as exact
rationals (`ℚ`); all claims under scrutiny are independent of
floating-point rounding.  Python lists are `List`, `None`-returning
lookups are `Option`.
-/

/-- `Rect` from `src/game/physics.py`: axis-aligned rectangle, top-left
corner `(x, y)`, extent `(w, h)`. -/
structure Rect where
  x : ℚ
  y : ℚ
  w : ℚ
  h : ℚ
deriving DecidableEq, Repr

namespace Rect

/-- `Rect.left`: `self.x`. -/
def left (r : Rect) : ℚ := r.x

/-- `Rect.right`: `self.x + self.w`. -/
def right (r : Rect) : ℚ := r.x + r.w

/-- `Rect.top`: `self.y`. -/
def top (r : Rect) : ℚ := r.y

/-- `Rect.bottom`: `self.y + self.h`. -/
def bottom (r : Rect) : ℚ := r.y + r.h

/-- `Rect.move(dx, dy)`: a new rectangle shifted by the offsets. -/
def move (r : Rect) (dx dy : ℚ) : Rect := ⟨r.x + dx, r.y + dy, r.w, r.h⟩

/-- `Rect.intersects(other)`: exclusive overlap test,
`not (right <= other.left or left >= other.right or bottom <= other.top
or top >= other.bottom)`. -/
def intersects (a b : Rect) : Bool :=
  ! decide (a.right ≤ b.left ∨ a.left ≥ b.right ∨ a.bottom ≤ b.top ∨ a.top ≥ b.bottom)

end Rect

/-- `_first_collision(rect, solids)`: the first solid in iteration order
that intersects `rect`, else `None`. -/
def _first_collision (rect : Rect) (solids : List Rect) : Option Rect :=
  solids.find? (fun s => rect.intersects s)

/-- Horizontal half of `resolve_collisions` (`physics.py` lines 51-62):
move by `(vx, 0)`; when `vx != 0` and a first collision exists, clamp
`x` against that solid and zero `vx`. -/
def resolveHorizontal (rect : Rect) (vx : ℚ) (solids : List Rect) : Rect × ℚ :=
  let new_rect := rect.move vx 0
  if vx ≠ 0 then
    match _first_collision new_rect solids with
    | some collided =>
        if vx > 0 then
          (⟨collided.left - rect.w, rect.y, rect.w, rect.h⟩, 0)
        else
          (⟨collided.right, rect.y, rect.w, rect.h⟩, 0)
    | none => (new_rect, vx)
  else (new_rect, vx)

/-- Vertical half of `resolve_collisions` (`physics.py` lines 64-77):
starting from the rectangle `hrect` produced by the horizontal half,
move by `(0, vy)`; when `vy != 0` and a first collision exists, clamp
`y` against that solid, zero `vy`, and raise the matching contact flag.
Returns `(rect, vy, on_ground, on_ceiling)`. -/
def resolveVertical (rect hrect : Rect) (vy : ℚ) (solids : List Rect) :
    Rect × ℚ × Bool × Bool :=
  let new_rect := hrect.move 0 vy
  if vy ≠ 0 then
    match _first_collision new_rect solids with
    | some collided =>
        if vy > 0 then
          (⟨new_rect.x, collided.top - rect.h, rect.w, rect.h⟩, 0, true, false)
        else
          (⟨new_rect.x, collided.bottom, rect.w, rect.h⟩, 0, false, true)
    | none => (new_rect, vy, false, false)
  else (new_rect, vy, false, false)

/-- `resolve_collisions(rect, vx, vy, solids)` from `src/game/physics.py`:
axis-separated sweep, horizontal then vertical.  Returns
`(new_rect, resolved_vx, resolved_vy, on_ground, on_ceiling)`. -/
def resolve_collisions (rect : Rect) (vx vy : ℚ) (solids : List Rect) :
    Rect × ℚ × ℚ × Bool × Bool :=
  let h := resolveHorizontal rect vx solids
  let v := resolveVertical rect h.1 vy solids
  (v.1, h.2, v.2.1, v.2.2.1, v.2.2.2)

/-! ## Constants and per-frame jump logic from `src/game/main.py` -/

/-- `WIDTH` from `main.py`. -/
def WIDTH : ℚ := 800

/-- `HEIGHT` from `main.py`. -/
def HEIGHT : ℚ := 600

/-- `COYOTE_TIME = 0.12` from `main.py`. -/
def COYOTE_TIME : ℚ := 0.12

/-- `JUMP_BUFFER = 0.12` from `main.py`. -/
def JUMP_BUFFER : ℚ := 0.12

/-- Player jump state threaded through the frame loop of `run` in
`main.py`: vertical velocity, grounded flag, and the two timers. -/
structure JumpState where
  vy : ℚ
  on_ground : Bool
  coyote_timer : ℚ
  jump_buffer : ℚ
deriving DecidableEq, Repr

/-- The jump fragment of one frame of `run` in `src/game/main.py`:
a jump-pressed event arms the buffer (`jump_buffer = JUMP_BUFFER`,
lines 304-306); then lines 337-347 refresh or decrement the coyote
timer, decrement the buffer, and fire the jump
(`vy = -jump_speed`, `on_ground = False`, `jump_buffer = 0.0`) exactly
when `jump_buffer > 0 and (on_ground or coyote_timer > 0)`. -/
def jumpStep (jump_speed dt : ℚ) (jump_pressed : Bool) (s : JumpState) : JumpState :=
  let jb0 := if jump_pressed then JUMP_BUFFER else s.jump_buffer
  let ct := if s.on_ground then COYOTE_TIME else max 0 (s.coyote_timer - dt)
  let jb := max 0 (jb0 - dt)
  if 0 < jb ∧ (s.on_ground = true ∨ 0 < ct) then
    { vy := -jump_speed, on_ground := false, coyote_timer := ct, jump_buffer := 0 }
  else
    { vy := s.vy, on_ground := s.on_ground, coyote_timer := ct, jump_buffer := jb }

/-! ## Board builders from `src/game/main.py` -/

/-- `Door` from `main.py`: trigger rectangle, display label, target board. -/
structure Door where
  rect : Rect
  label : String
  target_board : String
deriving DecidableEq, Repr

/-- A board: solids, doors, spawn point. -/
abbrev Board := List Rect × List Door × (ℚ × ℚ)

/-- Python `min(lst, key=lambda r: r.y)`: first element of minimal `y`
(replaces the running minimum only on a strictly smaller key), `none`
on the empty list (Python raises `ValueError` there). -/
def minByY : List Rect → Option Rect
  | [] => none
  | r :: rs => some (rs.foldl (fun best s => if s.y < best.y then s else best) r)

/-- `build_top_board` from `main.py`: floor, walls, 59 ascending
platforms, two doors on the highest on-screen platform. -/
def build_top_board : Board :=
  let platform_w : ℚ := 200
  let platform_h : ℚ := 20
  let xs : List ℚ := [60, WIDTH / 2 - platform_w / 2, WIDTH - platform_w - 60]
  let plats : List Rect :=
    ((List.range' 1 59).foldl
      (fun (acc : List Rect × ℚ) i =>
        let y := acc.2 - 90
        (acc.1 ++ [⟨xs.getD (i % xs.length) 0, y, platform_w, platform_h⟩], y))
      ([], HEIGHT - 100)).1
  let solids : List Rect :=
    [⟨0, HEIGHT - 40, WIDTH, 40⟩, ⟨-40, -5000, 40, 10000⟩, ⟨WIDTH, -5000, 40, 10000⟩] ++ plats
  let top_candidates := solids.filter
    (fun s => decide (0 ≤ s.x ∧ s.x < WIDTH ∧ 100 ≤ s.w ∧ s.h ≤ 40 ∧ s.y < HEIGHT - 60))
  let top_plat : Rect :=
    match minByY top_candidates with
    | some t => t
    | none => ⟨WIDTH / 2 - platform_w / 2, HEIGHT - 1000, platform_w, platform_h⟩
  let door_w : ℚ := 40
  let door_h : ℚ := 60
  let d1x := top_plat.x + top_plat.w * 0.30 - door_w / 2
  let d2x := top_plat.x + top_plat.w * 0.70 - door_w / 2
  let ddy := top_plat.y - door_h
  ([⟨0, HEIGHT - 40, WIDTH, 40⟩, ⟨-40, -5000, 40, 10000⟩, ⟨WIDTH, -5000, 40, 10000⟩] ++ plats,
   [⟨⟨d1x, ddy, door_w, door_h⟩, "♦", "diamond"⟩, ⟨⟨d2x, ddy, door_w, door_h⟩, "♠", "spades"⟩],
   (64, HEIGHT - 200))

/-- `build_placeholder_board` from `main.py`: floor, walls, two platform
layers, no doors. -/
def build_placeholder_board : Board :=
  let layer_h : ℚ := 20
  let y1 := HEIGHT - 240
  let y2 := HEIGHT - 400
  let gap : ℚ := 80
  let plat_w : ℚ := 220
  let xs : List ℚ := [40, 40 + plat_w + gap, WIDTH - plat_w - 40]
  let plats := xs.foldl
    (fun (acc : List Rect) x => acc ++ [⟨x, y1, plat_w, layer_h⟩, ⟨x, y2, plat_w, layer_h⟩]) []
  ([⟨0, HEIGHT - 40, WIDTH, 40⟩, ⟨-40, -5000, 40, 10000⟩, ⟨WIDTH, -5000, 40, 10000⟩] ++ plats,
   [], (80, HEIGHT - 200))

/-- `build_diamond_board` from `main.py`: floor, walls, 54 narrow
platforms, one door back to the top board on the highest platform.
The Python `min(...)` over the filtered solids raises on an empty list;
that failure path is modelled as `none`. -/
def build_diamond_board : Option Board :=
  let plat_w : ℚ := 90
  let plat_h : ℚ := 16
  let step_y : ℚ := 80
  let cols : List ℚ := [60, WIDTH / 2 - plat_w / 2, WIDTH - plat_w - 60]
  let plats : List Rect :=
    ((List.range' 1 54).foldl
      (fun (acc : List Rect × ℚ) i =>
        let y := acc.2 - step_y
        (acc.1 ++ [⟨cols.getD (i % cols.length) 0, y, plat_w, plat_h⟩], y))
      ([], HEIGHT - 140)).1
  let solids : List Rect :=
    [⟨0, HEIGHT - 40, WIDTH, 40⟩, ⟨-40, -5000, 40, 10000⟩, ⟨WIDTH, -5000, 40, 10000⟩] ++ plats
  match minByY (solids.filter (fun s => decide (s.h ≤ 40 ∧ 60 ≤ s.w))) with
  | none => none
  | some top_plat =>
    let door_w : ℚ := 40
    let door_h : ℚ := 60
    let ddx := top_plat.x + top_plat.w * 0.5 - door_w / 2
    let ddy := top_plat.y - door_h
    some (solids, [⟨⟨ddx, ddy, door_w, door_h⟩, "♦", "top"⟩], (80, HEIGHT - 200))

/-- `build_spades_board` from `main.py`: floor, walls, 23 rows of side
platforms, no doors. -/
def build_spades_board : Board :=
  let plat_w : ℚ := 180
  let plat_h : ℚ := 20
  let left_x : ℚ := 40
  let right_x := WIDTH - plat_w - 40
  let step_y : ℚ := 90
  let plats : List Rect :=
    ((List.range' 1 23).foldl
      (fun (acc : List Rect × ℚ) _ =>
        let y := acc.2 - step_y
        (acc.1 ++ [⟨left_x, y, plat_w, plat_h⟩, ⟨right_x, y, plat_w, plat_h⟩], y))
      ([], HEIGHT - 120)).1
  ([⟨0, HEIGHT - 40, WIDTH, 40⟩, ⟨-40, -5000, 40, 10000⟩, ⟨WIDTH, -5000, 40, 10000⟩] ++ plats,
   [], (80, HEIGHT - 200))

/-- `build_board(name)` from `main.py`: dispatch on the board name,
falling back to the top board for unknown names.  `none` only on the
modelled failure path of `build_diamond_board`. -/
def build_board (name : String) : Option Board :=
  if name = "top" then some build_top_board
  else if name = "placeholder" then some build_placeholder_board
  else if name = "diamond" then build_diamond_board
  else if name = "spades" then some build_spades_board
  else some build_top_board

-- Sanity checks against the repository's own test scenarios.
example :
    resolve_collisions ⟨60, 50, 40, 40⟩ 10 0 [⟨100, 0, 20, 200⟩] =
      (⟨60, 50, 40, 40⟩, 0, 0, false, false) := by
  norm_num [resolve_collisions, resolveHorizontal, resolveVertical, _first_collision,
    List.find?, Rect.move, Rect.intersects, Rect.left, Rect.right, Rect.top, Rect.bottom]

example :
    resolve_collisions ⟨60, 60, 40, 40⟩ 0 50 [⟨0, 100, 200, 20⟩] =
      (⟨60, 60, 40, 40⟩, 0, 0, true, false) := by
  norm_num [resolve_collisions, resolveHorizontal, resolveVertical, _first_collision,
    List.find?, Rect.move, Rect.intersects, Rect.left, Rect.right, Rect.top, Rect.bottom]

example :
    resolve_collisions ⟨0, 0, 10, 10⟩ 5 7 [] =
      (⟨5, 7, 10, 10⟩, 5, 7, false, false) := by
  norm_num [resolve_collisions, resolveHorizontal, resolveVertical, _first_collision,
    List.find?, Rect.move, Rect.intersects, Rect.left, Rect.right, Rect.top, Rect.bottom]

/-! ## Helper lemmas -/

lemma find?_append_first {α : Type} (p : α → Bool) (l1 l2 : List α) (a : α)
    (h1 : ∀ x ∈ l1, p x = false) (hp : p a = true) :
    (l1 ++ a :: l2).find? p = some a := by
  induction l1 with
  | nil => simp [List.find?, hp]
  | cons x xs ih =>
      have hx := h1 x (by simp)
      simp only [List.cons_append, List.find?, hx]
      exact ih fun y hy => h1 y (by simp [hy])

lemma first_collision_none (rect : Rect) (solids : List Rect)
    (h : ∀ t ∈ solids, rect.intersects t = false) :
    _first_collision rect solids = none := by
  unfold _first_collision
  rw [List.find?_eq_none]
  intro t ht
  simp [h t ht]

lemma resolveHorizontal_of_none (rect : Rect) (vx : ℚ) (solids : List Rect)
    (h : _first_collision (rect.move vx 0) solids = none) :
    resolveHorizontal rect vx solids = (rect.move vx 0, vx) := by
  unfold resolveHorizontal
  dsimp only
  split
  · rw [h]
  · rfl

lemma resolveHorizontal_of_zero (rect : Rect) (solids : List Rect) :
    resolveHorizontal rect 0 solids = (rect.move 0 0, 0) := by
  unfold resolveHorizontal
  dsimp only
  rw [if_neg (by simp)]

lemma resolveHorizontal_of_pos (rect : Rect) (vx : ℚ) (solids : List Rect) (s : Rect)
    (hvx : 0 < vx) (h : _first_collision (rect.move vx 0) solids = some s) :
    resolveHorizontal rect vx solids = (⟨s.left - rect.w, rect.y, rect.w, rect.h⟩, 0) := by
  unfold resolveHorizontal
  dsimp only
  rw [if_pos hvx.ne', h]
  dsimp only
  rw [if_pos hvx]

lemma resolveHorizontal_of_neg (rect : Rect) (vx : ℚ) (solids : List Rect) (s : Rect)
    (hvx : vx < 0) (h : _first_collision (rect.move vx 0) solids = some s) :
    resolveHorizontal rect vx solids = (⟨s.right, rect.y, rect.w, rect.h⟩, 0) := by
  unfold resolveHorizontal
  dsimp only
  rw [if_pos hvx.ne, h]
  dsimp only
  rw [if_neg hvx.not_lt]

lemma resolveVertical_of_none (rect hrect : Rect) (vy : ℚ) (solids : List Rect)
    (h : _first_collision (hrect.move 0 vy) solids = none) :
    resolveVertical rect hrect vy solids = (hrect.move 0 vy, vy, false, false) := by
  unfold resolveVertical
  dsimp only
  split
  · rw [h]
  · rfl

lemma resolveVertical_of_zero (rect hrect : Rect) (solids : List Rect) :
    resolveVertical rect hrect 0 solids = (hrect.move 0 0, 0, false, false) := by
  unfold resolveVertical
  dsimp only
  rw [if_neg (by simp)]

lemma resolveVertical_of_pos (rect hrect : Rect) (vy : ℚ) (solids : List Rect) (s : Rect)
    (hvy : 0 < vy) (h : _first_collision (hrect.move 0 vy) solids = some s) :
    resolveVertical rect hrect vy solids =
      (⟨(hrect.move 0 vy).x, s.top - rect.h, rect.w, rect.h⟩, 0, true, false) := by
  unfold resolveVertical
  dsimp only
  rw [if_pos hvy.ne', h]
  dsimp only
  rw [if_pos hvy]

lemma resolveVertical_of_neg (rect hrect : Rect) (vy : ℚ) (solids : List Rect) (s : Rect)
    (hvy : vy < 0) (h : _first_collision (hrect.move 0 vy) solids = some s) :
    resolveVertical rect hrect vy solids =
      (⟨(hrect.move 0 vy).x, s.bottom, rect.w, rect.h⟩, 0, false, true) := by
  unfold resolveVertical
  dsimp only
  rw [if_pos hvy.ne, h]
  dsimp only
  rw [if_neg hvy.not_lt]

lemma resolve_collisions_def (rect : Rect) (vx vy : ℚ) (solids : List Rect) :
    resolve_collisions rect vx vy solids =
      ((resolveVertical rect (resolveHorizontal rect vx solids).1 vy solids).1,
       (resolveHorizontal rect vx solids).2,
       (resolveVertical rect (resolveHorizontal rect vx solids).1 vy solids).2) := rfl

lemma resolveHorizontal_fst_w (rect : Rect) (vx : ℚ) (solids : List Rect) :
    (resolveHorizontal rect vx solids).1.w = rect.w := by
  rcases lt_trichotomy vx 0 with hv | hv | hv
  · cases h : _first_collision (rect.move vx 0) solids with
    | none => rw [resolveHorizontal_of_none rect vx solids h]; rfl
    | some s => rw [resolveHorizontal_of_neg rect vx solids s hv h]
  · subst hv; rw [resolveHorizontal_of_zero]; rfl
  · cases h : _first_collision (rect.move vx 0) solids with
    | none => rw [resolveHorizontal_of_none rect vx solids h]; rfl
    | some s => rw [resolveHorizontal_of_pos rect vx solids s hv h]

lemma resolveHorizontal_fst_h (rect : Rect) (vx : ℚ) (solids : List Rect) :
    (resolveHorizontal rect vx solids).1.h = rect.h := by
  rcases lt_trichotomy vx 0 with hv | hv | hv
  · cases h : _first_collision (rect.move vx 0) solids with
    | none => rw [resolveHorizontal_of_none rect vx solids h]; rfl
    | some s => rw [resolveHorizontal_of_neg rect vx solids s hv h]
  · subst hv; rw [resolveHorizontal_of_zero]; rfl
  · cases h : _first_collision (rect.move vx 0) solids with
    | none => rw [resolveHorizontal_of_none rect vx solids h]; rfl
    | some s => rw [resolveHorizontal_of_pos rect vx solids s hv h]

lemma resolveHorizontal_fst_y (rect : Rect) (vx : ℚ) (solids : List Rect) :
    (resolveHorizontal rect vx solids).1.y = rect.y := by
  rcases lt_trichotomy vx 0 with hv | hv | hv
  · cases h : _first_collision (rect.move vx 0) solids with
    | none => rw [resolveHorizontal_of_none rect vx solids h]; simp [Rect.move]
    | some s => rw [resolveHorizontal_of_neg rect vx solids s hv h]
  · subst hv; rw [resolveHorizontal_of_zero]; simp [Rect.move]
  · cases h : _first_collision (rect.move vx 0) solids with
    | none => rw [resolveHorizontal_of_none rect vx solids h]; simp [Rect.move]
    | some s => rw [resolveHorizontal_of_pos rect vx solids s hv h]

lemma resolveVertical_fst_x (rect hrect : Rect) (vy : ℚ) (solids : List Rect) :
    (resolveVertical rect hrect vy solids).1.x = hrect.x := by
  rcases lt_trichotomy vy 0 with hv | hv | hv
  · cases h : _first_collision (hrect.move 0 vy) solids with
    | none => rw [resolveVertical_of_none rect hrect vy solids h]; simp [Rect.move]
    | some s => rw [resolveVertical_of_neg rect hrect vy solids s hv h]; simp [Rect.move]
  · subst hv; rw [resolveVertical_of_zero]; simp [Rect.move]
  · cases h : _first_collision (hrect.move 0 vy) solids with
    | none => rw [resolveVertical_of_none rect hrect vy solids h]; simp [Rect.move]
    | some s => rw [resolveVertical_of_pos rect hrect vy solids s hv h]; simp [Rect.move]

lemma resolveVertical_fst_w (rect hrect : Rect) (vy : ℚ) (solids : List Rect)
    (hw : hrect.w = rect.w) :
    (resolveVertical rect hrect vy solids).1.w = rect.w := by
  rcases lt_trichotomy vy 0 with hv | hv | hv
  · cases h : _first_collision (hrect.move 0 vy) solids with
    | none => rw [resolveVertical_of_none rect hrect vy solids h]; simp [Rect.move, hw]
    | some s => rw [resolveVertical_of_neg rect hrect vy solids s hv h]
  · subst hv; rw [resolveVertical_of_zero]; simp [Rect.move, hw]
  · cases h : _first_collision (hrect.move 0 vy) solids with
    | none => rw [resolveVertical_of_none rect hrect vy solids h]; simp [Rect.move, hw]
    | some s => rw [resolveVertical_of_pos rect hrect vy solids s hv h]

lemma resolveVertical_fst_h (rect hrect : Rect) (vy : ℚ) (solids : List Rect)
    (hh : hrect.h = rect.h) :
    (resolveVertical rect hrect vy solids).1.h = rect.h := by
  rcases lt_trichotomy vy 0 with hv | hv | hv
  · cases h : _first_collision (hrect.move 0 vy) solids with
    | none => rw [resolveVertical_of_none rect hrect vy solids h]; simp [Rect.move, hh]
    | some s => rw [resolveVertical_of_neg rect hrect vy solids s hv h]
  · subst hv; rw [resolveVertical_of_zero]; simp [Rect.move, hh]
  · cases h : _first_collision (hrect.move 0 vy) solids with
    | none => rw [resolveVertical_of_none rect hrect vy solids h]; simp [Rect.move, hh]
    | some s => rw [resolveVertical_of_pos rect hrect vy solids s hv h]

lemma intersects_eq_false_iff (a b : Rect) :
    a.intersects b = false ↔
      (a.right ≤ b.left ∨ a.left ≥ b.right ∨ a.bottom ≤ b.top ∨ a.top ≥ b.bottom) := by
  simp only [Rect.intersects, Bool.not_eq_false', decide_eq_true_eq]

/-! ## Claim theorems -/

/-- C4: `intersects` is the exclusive comparison: it returns `false`
exactly when `a.right <= b.left` or `a.left >= b.right` or
`a.bottom <= b.top` or `a.top >= b.bottom`; in particular rectangles
that merely share a boundary edge do not overlap. -/
theorem intersects_exclusive_characterization (a b : Rect) :
    (a.intersects b = false ↔
      (a.right ≤ b.left ∨ a.left ≥ b.right ∨ a.bottom ≤ b.top ∨ a.top ≥ b.bottom)) ∧
    (a.right = b.left → a.intersects b = false) := by
  refine ⟨intersects_eq_false_iff a b, fun h => ?_⟩
  exact (intersects_eq_false_iff a b).mpr (Or.inl h.le)

/-- Witness for C4: two edge-touching unit squares do not overlap. -/
theorem intersects_exclusive_characterization_witness :
    Rect.intersects ⟨0, 0, 10, 10⟩ ⟨10, 0, 10, 10⟩ = false :=
  (intersects_exclusive_characterization ⟨0, 0, 10, 10⟩ ⟨10, 0, 10, 10⟩).2
    (by norm_num [Rect.right, Rect.left])

/-- C5 counterexample: the zero-width rectangle `Rect(5, 5, 0, 10)` lies
strictly inside `Rect(0, 0, 10, 20)` on both axes, so the exclusive
test reports an overlap — a degenerate rectangle does NOT overlap
nothing. -/
theorem degenerate_rect_overlap_counterexample :
    (Rect.mk 5 5 0 10).w = 0 ∧
      Rect.intersects ⟨5, 5, 0, 10⟩ ⟨0, 0, 10, 20⟩ = true := by
  refine ⟨rfl, ?_⟩
  norm_num [Rect.intersects, Rect.left, Rect.right, Rect.top, Rect.bottom]

/-- C5 amended: two rectangles that are degenerate on the same axis
(both of zero width, or both of zero height) never overlap by the
exclusive test; a single zero-extent rectangle can, however, overlap a
rectangle of positive extent. -/
theorem degenerate_same_axis_never_overlap (a b : Rect)
    (h : (a.w = 0 ∧ b.w = 0) ∨ (a.h = 0 ∧ b.h = 0)) :
    a.intersects b = false := by
  rcases h with ⟨ha, hb⟩ | ⟨ha, hb⟩
  · rcases le_total a.x b.x with hx | hx
    · exact (intersects_eq_false_iff a b).mpr
        (Or.inl (by simp [Rect.right, Rect.left, ha, hx]))
    · exact (intersects_eq_false_iff a b).mpr
        (Or.inr (Or.inl (by simp [Rect.right, Rect.left, hb, hx])))
  · rcases le_total a.y b.y with hy | hy
    · exact (intersects_eq_false_iff a b).mpr
        (Or.inr (Or.inr (Or.inl (by simp [Rect.bottom, Rect.top, ha, hy]))))
    · exact (intersects_eq_false_iff a b).mpr
        (Or.inr (Or.inr (Or.inr (by simp [Rect.bottom, Rect.top, hb, hy]))))

/-- Witness for the amended C5: two zero-width rectangles never overlap. -/
theorem degenerate_same_axis_never_overlap_witness :
    Rect.intersects ⟨3, 4, 0, 5⟩ ⟨7, 1, 0, 2⟩ = false :=
  degenerate_same_axis_never_overlap ⟨3, 4, 0, 5⟩ ⟨7, 1, 0, 2⟩ (Or.inl ⟨rfl, rfl⟩)

/-- C7: with an empty solids list, `resolve_collisions` returns the
translated body, the unchanged displacement, and cleared flags. -/
theorem resolve_empty_solids_is_noop (rect : Rect) (dx dy : ℚ) :
    resolve_collisions rect dx dy [] = (rect.move dx dy, dx, dy, false, false) := by
  rw [resolve_collisions_def, resolveHorizontal_of_none rect dx [] rfl,
    resolveVertical_of_none rect (rect.move dx 0) dy [] rfl]
  simp [Rect.move]

/-- C8: with zero displacement the resolver returns the identical
rectangle, zero velocity deltas and cleared flags, even when the body
overlaps solids, and a second call returns the same result. -/
theorem resolve_zero_displacement_identity (rect : Rect) (solids : List Rect) :
    resolve_collisions rect 0 0 solids = (rect, 0, 0, false, false) ∧
    resolve_collisions (resolve_collisions rect 0 0 solids).1 0 0 solids =
      (rect, 0, 0, false, false) := by
  have key : ∀ r : Rect, resolve_collisions r 0 0 solids = (r, 0, 0, false, false) := by
    intro r
    rw [resolve_collisions_def, resolveHorizontal_of_zero, resolveVertical_of_zero]
    simp [Rect.move]
  refine ⟨key rect, ?_⟩
  rw [key rect]
  exact key rect

/-- C10: the resolver never changes the body's width or height. -/
theorem resolve_preserves_size (rect : Rect) (vx vy : ℚ) (solids : List Rect) :
    (resolve_collisions rect vx vy solids).1.w = rect.w ∧
    (resolve_collisions rect vx vy solids).1.h = rect.h := by
  rw [resolve_collisions_def]
  exact ⟨resolveVertical_fst_w _ _ _ _ (resolveHorizontal_fst_w _ _ _),
         resolveVertical_fst_h _ _ _ _ (resolveHorizontal_fst_h _ _ _)⟩

/-- C1: horizontal resolution.  With `dx ≠ 0`, if the solids split as
`l1 ++ s :: l2` where no solid of `l1` overlaps the tentative rectangle
`rect.move dx 0` and `s` does (so `s` is the FIRST overlapping solid in
supplied order), the returned horizontal displacement is `0` and the
returned rectangle touches `s` (`right = s.left` moving right,
`left = s.right` moving left); if no solid overlaps the tentative
rectangle, the tentative horizontal position and the input `dx` are
returned. -/
theorem horizontal_sweep_first_overlap_clamps (rect : Rect) (dx dy : ℚ)
    (solids : List Rect) (hdx : dx ≠ 0) :
    (∀ l1 s l2, solids = l1 ++ s :: l2 →
      (∀ t ∈ l1, (rect.move dx 0).intersects t = false) →
      (rect.move dx 0).intersects s = true →
      (resolve_collisions rect dx dy solids).2.1 = 0 ∧
      (0 < dx → (resolve_collisions rect dx dy solids).1.right = s.left) ∧
      (dx < 0 → (resolve_collisions rect dx dy solids).1.left = s.right)) ∧
    ((∀ t ∈ solids, (rect.move dx 0).intersects t = false) →
      (resolve_collisions rect dx dy solids).1.x = rect.x + dx ∧
      (resolve_collisions rect dx dy solids).2.1 = dx) := by
  constructor
  · intro l1 s l2 hsplit hmiss hhit
    have hfc : _first_collision (rect.move dx 0) solids = some s := by
      rw [hsplit]
      exact find?_append_first _ l1 l2 s (fun t ht => by simp [hmiss t ht]) hhit
    rcases hdx.lt_or_lt with hneg | hpos
    · rw [resolve_collisions_def, resolveHorizontal_of_neg rect dx solids s hneg hfc]
      dsimp only
      refine ⟨rfl, fun hpos => absurd hpos hneg.not_lt, fun _ => ?_⟩
      rw [Rect.left, resolveVertical_fst_x]
    · rw [resolve_collisions_def, resolveHorizontal_of_pos rect dx solids s hpos hfc]
      dsimp only
      refine ⟨rfl, fun _ => ?_, fun hneg => absurd hneg hpos.not_lt⟩
      rw [Rect.right, resolveVertical_fst_x,
        resolveVertical_fst_w rect ⟨s.left - rect.w, rect.y, rect.w, rect.h⟩ dy solids rfl]
      dsimp only
      ring
  · intro hmiss
    have hfc : _first_collision (rect.move dx 0) solids = none :=
      first_collision_none _ _ hmiss
    rw [resolve_collisions_def, resolveHorizontal_of_none rect dx solids hfc]
    refine ⟨?_, rfl⟩
    show (resolveVertical rect (rect.move dx 0) dy solids).1.x = rect.x + dx
    rw [resolveVertical_fst_x]
    rfl

/-- Witness for C1: the repository's wall scenario — wall at x=[100,120),
body (60,50,40,40) moving dx=+10 ends with `right = wall.left` and
returned dx = 0. -/
theorem horizontal_sweep_first_overlap_clamps_witness :
    (resolve_collisions ⟨60, 50, 40, 40⟩ 10 0 [⟨100, 0, 20, 200⟩]).2.1 = 0 ∧
    (resolve_collisions ⟨60, 50, 40, 40⟩ 10 0 [⟨100, 0, 20, 200⟩]).1.right =
      (Rect.mk 100 0 20 200).left := by
  have h := (horizontal_sweep_first_overlap_clamps ⟨60, 50, 40, 40⟩ 10 0
      [⟨100, 0, 20, 200⟩] (by norm_num)).1 [] ⟨100, 0, 20, 200⟩ [] rfl (by simp)
      (by norm_num [Rect.intersects, Rect.move, Rect.left, Rect.right, Rect.top, Rect.bottom])
  exact ⟨h.1, h.2.1 (by norm_num)⟩

/-- C2: vertical resolution.  With `dy ≠ 0`, the sweep starts from the
rectangle produced by the horizontal step; if the solids split as
`l1 ++ s :: l2` where no solid of `l1` overlaps the tentative rectangle
and `s` does (the FIRST overlapping solid in supplied order), the
returned vertical displacement is `0`, and moving down clamps
`bottom = s.top` with `grounded = true` while moving up clamps
`top = s.bottom` with `ceiling = true`; if no solid overlaps, the
tentative position, the input `dy`, and cleared flags are returned. -/
theorem vertical_sweep_first_overlap_clamps (rect : Rect) (dx dy : ℚ)
    (solids : List Rect) (hdy : dy ≠ 0) :
    (∀ l1 s l2, solids = l1 ++ s :: l2 →
      (∀ t ∈ l1, ((resolveHorizontal rect dx solids).1.move 0 dy).intersects t = false) →
      ((resolveHorizontal rect dx solids).1.move 0 dy).intersects s = true →
      (resolve_collisions rect dx dy solids).2.2.1 = 0 ∧
      (0 < dy → (resolve_collisions rect dx dy solids).1.bottom = s.top ∧
        (resolve_collisions rect dx dy solids).2.2.2.1 = true) ∧
      (dy < 0 → (resolve_collisions rect dx dy solids).1.top = s.bottom ∧
        (resolve_collisions rect dx dy solids).2.2.2.2 = true)) ∧
    ((∀ t ∈ solids, ((resolveHorizontal rect dx solids).1.move 0 dy).intersects t = false) →
      (resolve_collisions rect dx dy solids).1 =
        (resolveHorizontal rect dx solids).1.move 0 dy ∧
      (resolve_collisions rect dx dy solids).2.2.1 = dy ∧
      (resolve_collisions rect dx dy solids).2.2.2.1 = false ∧
      (resolve_collisions rect dx dy solids).2.2.2.2 = false) := by
  constructor
  · intro l1 s l2 hsplit hmiss hhit
    have hfc : _first_collision ((resolveHorizontal rect dx solids).1.move 0 dy) solids
        = some s := by
      set A := (resolveHorizontal rect dx solids).1.move 0 dy with hA
      rw [hsplit]
      exact find?_append_first _ l1 l2 s (fun t ht => by simp [hmiss t ht]) hhit
    rcases hdy.lt_or_lt with hneg | hpos
    · rw [resolve_collisions_def, resolveVertical_of_neg rect _ dy solids s hneg hfc]
      dsimp only
      exact ⟨rfl, fun hp => absurd hp hneg.not_lt, fun _ => ⟨rfl, rfl⟩⟩
    · rw [resolve_collisions_def, resolveVertical_of_pos rect _ dy solids s hpos hfc]
      dsimp only
      refine ⟨rfl, fun _ => ⟨?_, rfl⟩, fun hn => absurd hn hpos.not_lt⟩
      simp [Rect.bottom]
  · intro hmiss
    have hfc := first_collision_none _ _ hmiss
    rw [resolve_collisions_def, resolveVertical_of_none rect _ dy solids hfc]
    exact ⟨rfl, rfl, rfl, rfl⟩

/-- Witness for C2: the repository's landing scenario — platform
(0,100,200,20), body (60,60,40,40) moving dy=+50 lands with
`bottom = platform.top`, returned dy = 0, `grounded = true`. -/
theorem vertical_sweep_first_overlap_clamps_witness :
    (resolve_collisions ⟨60, 60, 40, 40⟩ 0 50 [⟨0, 100, 200, 20⟩]).2.2.1 = 0 ∧
    (resolve_collisions ⟨60, 60, 40, 40⟩ 0 50 [⟨0, 100, 200, 20⟩]).1.bottom =
      (Rect.mk 0 100 200 20).top ∧
    (resolve_collisions ⟨60, 60, 40, 40⟩ 0 50 [⟨0, 100, 200, 20⟩]).2.2.2.1 = true := by
  have h := (vertical_sweep_first_overlap_clamps ⟨60, 60, 40, 40⟩ 0 50
      [⟨0, 100, 200, 20⟩] (by norm_num)).1 [] ⟨0, 100, 200, 20⟩ [] rfl (by simp)
      (by norm_num [resolveHorizontal, _first_collision, List.find?, Rect.intersects,
        Rect.move, Rect.left, Rect.right, Rect.top, Rect.bottom])
  exact ⟨h.1, (h.2.1 (by norm_num)).1, (h.2.1 (by norm_num)).2⟩

/-- C3: non-penetration.  The rectangle returned by `resolve_collisions`
never overlaps a solid the call clamped against on either axis: not the
solid the horizontal step clamped against (even after the vertical
move), nor the solid the vertical step clamped against. -/
theorem resolver_never_overlaps_clamped_solid (rect : Rect) (dx dy : ℚ)
    (solids : List Rect) :
    (∀ s, dx ≠ 0 → _first_collision (rect.move dx 0) solids = some s →
      (resolve_collisions rect dx dy solids).1.intersects s = false) ∧
    (∀ s, dy ≠ 0 →
      _first_collision ((resolveHorizontal rect dx solids).1.move 0 dy) solids = some s →
      (resolve_collisions rect dx dy solids).1.intersects s = false) := by
  constructor
  · intro s hdx hfc
    rcases hdx.lt_or_lt with hneg | hpos
    · rw [resolve_collisions_def, resolveHorizontal_of_neg rect dx solids s hneg hfc]
      dsimp only
      apply (intersects_eq_false_iff _ _).mpr
      refine Or.inr (Or.inl ?_)
      rw [Rect.left, resolveVertical_fst_x]
    · rw [resolve_collisions_def, resolveHorizontal_of_pos rect dx solids s hpos hfc]
      dsimp only
      apply (intersects_eq_false_iff _ _).mpr
      refine Or.inl ?_
      rw [Rect.right, resolveVertical_fst_x,
        resolveVertical_fst_w rect ⟨s.left - rect.w, rect.y, rect.w, rect.h⟩ dy solids rfl]
      dsimp only
      simp
  · intro s hdy hfc
    rcases hdy.lt_or_lt with hneg | hpos
    · rw [resolve_collisions_def, resolveVertical_of_neg rect _ dy solids s hneg hfc]
      dsimp only
      apply (intersects_eq_false_iff _ _).mpr
      exact Or.inr (Or.inr (Or.inr (le_refl s.bottom)))
    · rw [resolve_collisions_def, resolveVertical_of_pos rect _ dy solids s hpos hfc]
      dsimp only
      apply (intersects_eq_false_iff _ _).mpr
      refine Or.inr (Or.inr (Or.inl ?_))
      simp [Rect.bottom]

/-- Witness for C3: a body moving diagonally into a corner is clamped
against the wall horizontally and the floor vertically, and the final
rectangle overlaps neither. -/
theorem resolver_never_overlaps_clamped_solid_witness :
    (resolve_collisions ⟨60, 50, 40, 40⟩ 10 50
      [⟨100, 0, 20, 200⟩, ⟨0, 100, 200, 20⟩]).1.intersects ⟨100, 0, 20, 200⟩ = false ∧
    (resolve_collisions ⟨60, 50, 40, 40⟩ 10 50
      [⟨100, 0, 20, 200⟩, ⟨0, 100, 200, 20⟩]).1.intersects ⟨0, 100, 200, 20⟩ = false := by
  refine ⟨(resolver_never_overlaps_clamped_solid ⟨60, 50, 40, 40⟩ 10 50
      [⟨100, 0, 20, 200⟩, ⟨0, 100, 200, 20⟩]).1 ⟨100, 0, 20, 200⟩ (by norm_num) ?_,
    (resolver_never_overlaps_clamped_solid ⟨60, 50, 40, 40⟩ 10 50
      [⟨100, 0, 20, 200⟩, ⟨0, 100, 200, 20⟩]).2 ⟨0, 100, 200, 20⟩ (by norm_num) ?_⟩
  · norm_num [_first_collision, List.find?, Rect.intersects, Rect.move,
      Rect.left, Rect.right, Rect.top, Rect.bottom]
  · norm_num [resolveHorizontal, _first_collision, List.find?, Rect.intersects,
      Rect.move, Rect.left, Rect.right, Rect.top, Rect.bottom]

/-- C6: a jump fires in a frame exactly when the decremented jump
buffer is still positive and the body is grounded or the updated coyote
timer is still positive; firing sets `vy = -jump_speed`, clears the
grounded flag and consumes the buffer, otherwise the motion state is
unchanged apart from the timer updates.  Concretely (frames of 0.05 s,
coyote window 0.12 s): a jump pressed 0.10 s after leaving ground still
fires, and one pressed 0.13 s after (frames of 0.065 s) does not. -/
theorem jump_fires_iff_buffer_and_ground_or_coyote :
    (∀ (js dt : ℚ) (pressed : Bool) (s : JumpState),
      (0 < max 0 ((if pressed then JUMP_BUFFER else s.jump_buffer) - dt) ∧
        (s.on_ground = true ∨
          0 < (if s.on_ground then COYOTE_TIME else max 0 (s.coyote_timer - dt))) →
        jumpStep js dt pressed s =
          ⟨-js, false,
            if s.on_ground then COYOTE_TIME else max 0 (s.coyote_timer - dt), 0⟩) ∧
      (¬ (0 < max 0 ((if pressed then JUMP_BUFFER else s.jump_buffer) - dt) ∧
          (s.on_ground = true ∨
            0 < (if s.on_ground then COYOTE_TIME else max 0 (s.coyote_timer - dt)))) →
        jumpStep js dt pressed s =
          ⟨s.vy, s.on_ground,
            if s.on_ground then COYOTE_TIME else max 0 (s.coyote_timer - dt),
            max 0 ((if pressed then JUMP_BUFFER else s.jump_buffer) - dt)⟩)) ∧
    (jumpStep 820 0.05 true (jumpStep 820 0.05 false ⟨0, false, COYOTE_TIME, 0⟩)).vy
      = -820 ∧
    (jumpStep 820 0.065 true (jumpStep 820 0.065 false ⟨0, false, COYOTE_TIME, 0⟩)).vy
      = 0 := by
  refine ⟨fun js dt pressed s => ⟨fun h => ?_, fun h => ?_⟩, ?_, ?_⟩
  · unfold jumpStep
    dsimp only
    rw [if_pos h]
  · unfold jumpStep
    dsimp only
    rw [if_neg h]
  · norm_num [jumpStep, COYOTE_TIME, JUMP_BUFFER, max_def]
  · norm_num [jumpStep, COYOTE_TIME, JUMP_BUFFER, max_def]

/-- Witness for C6: a grounded body with a freshly pressed jump fires. -/
theorem jump_fires_iff_buffer_and_ground_or_coyote_witness :
    jumpStep 820 0.01 true ⟨0, true, 0.12, 0⟩ = ⟨-820, false, COYOTE_TIME, 0⟩ := by
  have h := (jump_fires_iff_buffer_and_ground_or_coyote.1 820 0.01 true
      ⟨0, true, 0.12, 0⟩).1 (by norm_num [JUMP_BUFFER, max_def])
  simpa using h

lemma build_diamond_board_isSome : build_diamond_board.isSome = true := by
  norm_num [build_diamond_board, List.filter_cons, minByY, WIDTH, HEIGHT]

/-- C9: `build_board` never fails for any name, and every name outside
the known set falls back to the same result as `build_board "top"`. -/
theorem build_board_total_and_default_fallback (name : String) :
    (build_board name).isSome = true ∧
    (name ≠ "top" → name ≠ "placeholder" → name ≠ "diamond" → name ≠ "spades" →
      build_board name = build_board "top") := by
  constructor
  · unfold build_board
    split_ifs <;> simp [build_diamond_board_isSome]
  · intro h1 h2 h3 h4
    simp [build_board, h1, h2, h3, h4]

/-- Witness for C9: the unknown name "zzz" yields the top board. -/
theorem build_board_total_and_default_fallback_witness :
    build_board "zzz" = build_board "top" :=
  (build_board_total_and_default_fallback "zzz").2
    (by decide) (by decide) (by decide) (by decide)
